import Mathlib

set_option maxHeartbeats 1000000

/-!
Verification of the deterministic decision-and-audit pipeline described in
`spec.md` against the repository sources.  The executable core under `src/`
consists of the `/execute` HTTP handler and billing middleware of the MCP
router (`src/factory/mcp-router/src/index.ts`,
`src/factory/mcp-router/src/middleware/auth.ts`) and two replay-integrity
simulations (`src/unnamed/part_017`, `src/factory/mcp-router/src/test_ril.ts`).
Each of those is embedded below as a pure state-passing function.  The
Validity Projector and the outer audit cycle are not present under `src/`;
where a claim needs them they are modelled from the spec and marked as such.
-/

/-- Association-list lookup: returns the value stored under the first
occurrence of key `k`, or `none`.  Models a document read from a keyed
collection (Firestore `collection(...).doc(k).get()` / the mock `tx.get`). -/
def lookupKey {κ α : Type} [DecidableEq κ] (k : κ) : List (κ × α) → Option α
  | [] => none
  | p :: rest => if p.1 = k then some p.2 else lookupKey k rest

/-- Association-list upsert: replaces the first binding of `k`, or appends a
new one.  Models a keyed document write (`tx.set` / `tx.update`). -/
def setKey {κ α : Type} [DecidableEq κ] (k : κ) (v : α) : List (κ × α) → List (κ × α)
  | [] => [(k, v)]
  | p :: rest => if p.1 = k then (k, v) :: rest else p :: setKey k v rest

theorem lookupKey_setKey_self {κ α : Type} [DecidableEq κ] (k : κ) (v : α)
    (l : List (κ × α)) : lookupKey k (setKey k v l) = some v := by
  induction l with
  | nil => simp [setKey, lookupKey]
  | cons p rest ih =>
    by_cases h : p.1 = k
    · simp [setKey, h, lookupKey]
    · simp [setKey, h, lookupKey, ih]

theorem lookupKey_setKey_ne {κ α : Type} [DecidableEq κ] {k k₂ : κ} (v : α)
    (l : List (κ × α)) (hne : k ≠ k₂) :
    lookupKey k (setKey k₂ v l) = lookupKey k l := by
  induction l with
  | nil => simp [setKey, lookupKey, Ne.symm hne]
  | cons p rest ih =>
    by_cases h : p.1 = k₂
    · have hpk : ¬p.1 = k := by rw [h]; exact Ne.symm hne
      simp [setKey, h, lookupKey, hpk, Ne.symm hne]
    · simp [setKey, h, lookupKey, ih]

namespace RilLogic

/-!
Embedding of `simulateExecuteLogic` from `src/unnamed/part_017`.  The mock
transaction state maps `users/<id>` documents to their
`billing.quota_remaining` counter and `logs/<key>` documents to the stored
execution result.  The JS code reads `userDoc.data().billing.quota_remaining`
without an existence check, so an absent user document is a runtime crash;
it is modelled as the error `missingUserDoc`.
-/

/-- The stored execution result: `{ seal: "aligned_seal_" + idempotencyKey }`.
(The JS field is named `seal`; that word is a Lean command, so the field is
called `sealTag` here.) -/
structure RilEffect where
  sealTag : String
  deriving DecidableEq

/-- The mock transaction state of part_017: per-user quota counters and the
completed-execution log keyed by idempotency key. -/
structure RilState where
  users : List (String × Int)
  logs : List (String × RilEffect)
  deriving DecidableEq

inductive RilStatus
  | executed
  | replay
  deriving DecidableEq

inductive RilResult
  | ok (status : RilStatus) (eff : RilEffect)
  | quotaExhausted
  | missingUserDoc
  deriving DecidableEq

/-- Result of one simulated transactional execution: the returned value, the
post-state, and whether step 3 (the mock effect computation) ran. -/
structure RilOutcome where
  result : RilResult
  state : RilState
  invoked : Bool
  deriving DecidableEq

/-- Embedding of `simulateExecuteLogic(tx, userId, idempotencyKey)` from
`src/unnamed/part_017` lines 34-58: (1) idempotency check, (2) quota check,
(3) mock execution, (4) commit of quota decrement plus log write.  Errors
thrown before any `tx.update`/`tx.set` leave the state unchanged. -/
def simulateExecuteLogic (s : RilState) (userId idemKey : String) : RilOutcome :=
  match lookupKey idemKey s.logs with
  | some stored => ⟨RilResult.ok RilStatus.replay stored, s, false⟩
  | none =>
    match lookupKey userId s.users with
    | none => ⟨RilResult.missingUserDoc, s, false⟩
    | some quota =>
      if quota ≤ 0 then ⟨RilResult.quotaExhausted, s, false⟩
      else
        let result : RilEffect := ⟨"aligned_seal_" ++ idemKey⟩
        ⟨RilResult.ok RilStatus.executed result,
          ⟨setKey userId (quota - 1) s.users, setKey idemKey result s.logs⟩, true⟩

end RilLogic

namespace McpRouter

/-!
Embedding of the `/execute` endpoint of `src/factory/mcp-router/src/index.ts`
together with the `checkBillingStatus` middleware of
`src/factory/mcp-router/src/middleware/auth.ts`.  Firestore documents are
modelled as association lists; a `runTransaction` whose callback throws leaves
the store untouched (Firestore aborts without applying any buffered write).
Server timestamps (`created_at`, `expires_at`, `subscription.updated`,
`metadata.execution_time`) and the constant `metadata.determinism_score` are
not modelled; `request_id` (a fresh UUID) is likewise outside the
deterministic state.  JWT verification is cryptographic and is abstracted as
the boolean `authValid` of the request.
-/

/-- The `billing` object of a user document.  `quota = none` models an absent
`quota_remaining` field. -/
structure Billing where
  quota : Option Int
  deriving DecidableEq

/-- A `users/<uid>` document: `subscription.status` (`none` when the
subscription object or its status is absent) and the optional billing block. -/
structure UserDoc where
  subStatus : Option String
  billing : Option Billing
  deriving DecidableEq

/-- The deterministic payload of the mock execution result built by the
handler: `version`, `seal` (named `sealTag`), `data.status`, `data.result`. -/
structure RouterResult where
  version : String
  sealTag : String
  dataStatus : String
  dataResult : String
  deriving DecidableEq

/-- An `execution_logs/<idempotency_key>` document (timestamp fields and
`request_id` omitted, see the namespace comment). -/
structure LogEntry where
  userId : String
  tool : String
  result : RouterResult
  deriving DecidableEq

/-- The durable store touched by `/execute`: the `users` collection and the
`execution_logs` collection keyed by idempotency key. -/
structure Store where
  users : List (String × UserDoc)
  execLogs : List (String × LogEntry)
  deriving DecidableEq

/-- An `/execute` request after JSON parsing: JWT validity (abstracted),
the authenticated uid, the tool name, `arguments.company_name`, and the
optional `idempotency_key`. -/
structure ExecRequest where
  authValid : Bool
  uid : String
  tool : String
  companyName : Option String
  idemKey : Option String
  deriving DecidableEq

/-- The HTTP responses the middleware chain and handler can produce. -/
inductive HttpResponse
  | ok (body : RouterResult)
  | badRequest (msg : String)
  | authFailed
  | paymentRequired (msg : String)
  | tooManyRequests (msg : String)
  | serverError (msg : String)
  deriving DecidableEq

/-- `index.ts` lines 81-86: the mock result of the task execution.  JS
`args?.company_name || 'unknown'` treats the empty string as falsy. -/
def mockResult (companyName : Option String) : RouterResult :=
  let name := match companyName with
    | some c => if c = "" then "unknown" else c
    | none => "unknown"
  ⟨"1.0.1", "mock_seal_for_demo", "success", "Enriched data for " ++ name⟩

/-- Outcome of the middleware `checkBillingStatus`: either reject with an
HTTP response or attach the billing block and continue. -/
inductive BillingGate
  | proceed (b : Billing)
  | reject (resp : HttpResponse)
  deriving DecidableEq

/-- Embedding of `checkBillingStatus` (`auth.ts` lines 44-80): 402 when the
user document is missing or the subscription is not active, 429 when the
billing block is missing or `quota_remaining <= 0`.  In JS an absent
`quota_remaining` makes `billing.quota_remaining <= 0` false, so such a user
passes the gate. -/
def checkBillingStatus (s : Store) (uid : String) : BillingGate :=
  match lookupKey uid s.users with
  | none => BillingGate.reject (HttpResponse.paymentRequired "Subscription required")
  | some u =>
    if u.subStatus ≠ some "active" then
      BillingGate.reject (HttpResponse.paymentRequired "Active subscription required")
    else
      match u.billing with
      | none => BillingGate.reject (HttpResponse.tooManyRequests "Quota exhausted")
      | some b =>
        match b.quota with
        | none => BillingGate.proceed b
        | some q =>
          if q ≤ 0 then BillingGate.reject (HttpResponse.tooManyRequests "Quota exhausted")
          else BillingGate.proceed b

/-- Result of the handler: the HTTP response, the post-call store, and
whether the mock task execution (`index.ts` step 2) ran in this call. -/
structure HandlerOut where
  resp : HttpResponse
  store : Store
  effectInvoked : Bool
  deriving DecidableEq

/-- The non-transactional idempotency read (`index.ts` lines 70-77):
`execution_logs.doc(idempotency_key).get()` performed before the transaction. -/
def replayCheck (s : Store) (k : String) : Option LogEntry :=
  lookupKey k s.execLogs

/-- Embedding of the `db.runTransaction` callback (`index.ts` lines 91-117):
read the user document, fail if missing, fail if
`billing?.quota_remaining || 0` is `<= 0`, otherwise decrement the quota and
write the execution log in the same transaction.  A thrown error aborts the
transaction, so the store is returned unchanged in the failure cases. -/
def runExecTransaction (s : Store) (uid tool : String) (mock : RouterResult)
    (k : String) : HttpResponse × Store :=
  match lookupKey uid s.users with
  | none => (HttpResponse.serverError "User not found", s)
  | some u =>
    let currentQuota : Int := (u.billing.bind Billing.quota).getD 0
    if currentQuota ≤ 0 then
      (HttpResponse.serverError "Quota exhausted during execution", s)
    else
      let u₂ : UserDoc := { u with billing := some ⟨some (currentQuota - 1)⟩ }
      (HttpResponse.ok mock,
        ⟨setKey uid u₂ s.users, setKey k ⟨uid, tool, mock⟩ s.execLogs⟩)

/-- Embedding of the `/execute` handler body (`index.ts` lines 57-126) after
the middleware chain: reject a missing `idempotency_key` with 400, replay a
stored result, otherwise compute the mock result (before any quota check)
and run the transaction. -/
def handleExecute (s : Store) (uid tool : String) (companyName : Option String)
    (idemKey : Option String) : HandlerOut :=
  match idemKey with
  | none => ⟨HttpResponse.badRequest "idempotency_key is required for RIL compliance", s, false⟩
  | some k =>
    match replayCheck s k with
    | some entry => ⟨HttpResponse.ok entry.result, s, false⟩
    | none =>
      let mock := mockResult companyName
      let (resp, s₂) := runExecTransaction s uid tool mock k
      ⟨resp, s₂, true⟩

/-- The full `/execute` pipeline: `authenticateJWT`, then
`checkBillingStatus`, then the handler.  A failed JWT verification answers
401/403 (collapsed into `authFailed`); a billing rejection stops before the
handler, so no idempotency lookup runs. -/
def executePipeline (s : Store) (req : ExecRequest) : HandlerOut :=
  if req.authValid = false then ⟨HttpResponse.authFailed, s, false⟩
  else
    match checkBillingStatus s req.uid with
    | BillingGate.reject r => ⟨r, s, false⟩
    | BillingGate.proceed _ => handleExecute s req.uid req.tool req.companyName req.idemKey

/-- The quota counter visible for `uid` in a store (`none` when the user,
billing block, or field is absent). -/
def quotaOf (s : Store) (uid : String) : Option Int :=
  (lookupKey uid s.users).bind (fun u => u.billing.bind Billing.quota)

/-- Two concurrent `/execute` requests for the same idempotency key, in the
interleaving where both non-transactional idempotency reads happen before
either transaction commits.  The serializable transactions then run one after
the other (Firestore retries the later one against the committed state); the
log check at `index.ts` line 73 is not re-run inside the transaction. -/
def raceSameKey (s : Store) (uid tool : String) (companyName : Option String)
    (k : String) : HttpResponse × HttpResponse × Store :=
  match replayCheck s k with
  | some entry => (HttpResponse.ok entry.result, HttpResponse.ok entry.result, s)
  | none =>
    let mock := mockResult companyName
    let (respA, s₁) := runExecTransaction s uid tool mock k
    let (respB, s₂) := runExecTransaction s₁ uid tool mock k
    (respA, respB, s₂)

end McpRouter

namespace TestRil

/-!
Embedding of `simulateExecution` from `src/factory/mcp-router/src/test_ril.ts`
lines 19-60.  Here the idempotency check runs inside the transaction, the
mock business-logic execution runs next, and the quota check runs after it;
a thrown error aborts the transaction, leaving the state unchanged.  A user
document maps to its optional `billing.quota_remaining` value.
-/

/-- The mock result `{ status: "success", seal: "hash_v1_" + idempotencyKey }`
(the JS `seal` field is called `sealTag`, see `RilLogic.RilEffect`). -/
structure SimEffect where
  status : String
  sealTag : String
  deriving DecidableEq

structure SimState where
  users : List (String × Option Int)
  logs : List (String × SimEffect)
  deriving DecidableEq

inductive SimResult
  | ok (replayed : Bool) (eff : SimEffect)
  | userNotFound
  | quotaExhausted
  deriving DecidableEq

structure SimOutcome where
  result : SimResult
  state : SimState
  invoked : Bool
  deriving DecidableEq

/-- Embedding of `simulateExecution(userId, tool, idempotencyKey)`:
(1) idempotency check, (2) mock execution, (3) quota enforcement
(`quota_remaining || 0`), (4) state update.  The `invoked` flag records
whether step 2 ran. -/
def simulateExecution (s : SimState) (userId idemKey : String) : SimOutcome :=
  match lookupKey idemKey s.logs with
  | some stored => ⟨SimResult.ok true stored, s, false⟩
  | none =>
    let mock : SimEffect := ⟨"success", "hash_v1_" ++ idemKey⟩
    match lookupKey userId s.users with
    | none => ⟨SimResult.userNotFound, s, true⟩
    | some optQuota =>
      let quota := optQuota.getD 0
      if quota ≤ 0 then ⟨SimResult.quotaExhausted, s, true⟩
      else
        ⟨SimResult.ok false mock,
          ⟨setKey userId (some (quota - 1)) s.users, setKey idemKey mock s.logs⟩, true⟩

end TestRil

namespace ValidityProjector

/-!
The Validity Projector of spec §4.2 (`project`, `classify`, the 64-entry
verdict table) is not present under `src/`; only documentation references it
(`src/unnamed/part_007` Group A, `src/unnamed/part_013`).  The definitions in
this namespace are therefore modelled from the spec.
-/

/-- The closed verdict enumeration of spec §3. -/
inductive ExistenceVerdict
  | survivable
  | transitional
  | terminalSoft
  | terminalHard
  deriving DecidableEq

/-- Modelled from the spec: a Snapshot is "a set of typed fields (focus
identity, role, bounds, enabled flags)" (§3); the concrete field list is not
in the repository. -/
structure Snapshot where
  focusApp : String
  role : String
  boundsW : Int
  boundsH : Int
  enabled : Bool
  deriving DecidableEq

/-- Modelled from the spec: a Delta is "the externally-observed
pressure/change applied to a Snapshot to produce the next Snapshot" (§3),
opaque beyond its effect on projection; modelled as optional replacements of
the snapshot fields. -/
structure Delta where
  newApp : Option String
  newRole : Option String
  newBounds : Option (Int × Int)
  newEnabled : Option Bool
  deriving DecidableEq

/-- The snapshot produced by applying a delta. -/
def applyDelta (s : Snapshot) (d : Delta) : Snapshot :=
  { focusApp := d.newApp.getD s.focusApp
    role := d.newRole.getD s.role
    boundsW := (d.newBounds.map Prod.fst).getD s.boundsW
    boundsH := (d.newBounds.map Prod.snd).getD s.boundsH
    enabled := d.newEnabled.getD s.enabled }

/-- The numeric value of one of the six binary flags. -/
def bitOf (b : Bool) : Nat := if b then 1 else 0

/-- Modelled from the spec: `project(prev, delta)` derives a ProjectedState,
"a fixed-width discrete code (conceptually 6 independent binary flags,
64 total combinations)", as a pure function of the transition (§3, §4.2).
The six flags compare the previous and next snapshots field by field. -/
def project (prev : Snapshot) (d : Delta) : Nat :=
  let nxt := applyDelta prev d
  32 * bitOf (prev.focusApp = nxt.focusApp) +
  16 * bitOf (prev.role = nxt.role) +
  8 * bitOf (prev.boundsW = nxt.boundsW) +
  4 * bitOf (prev.boundsH = nxt.boundsH) +
  2 * bitOf prev.enabled +
  bitOf nxt.enabled

/-- A simple character-accumulating code for strings, used by the
determinism-hash model. -/
def strCode (s : String) : Nat :=
  s.data.foldl (fun a ch => (a * 131 + ch.toNat) % 4294967296) 7

/-- Modelled from the spec: the downstream determinism hash computed from a
ProjectedState (§8 property 1); the repository does not fix the byte-level
encoding (spec §9 open question), so a concrete inject-by-arithmetic model
over the code is used. -/
def determinismHash (code : Nat) : Nat :=
  (code * 1000003 + 2654435761) % 4294967296

/-- Modelled from the spec: the verdict assigned to one code.  The spec
requires a total 64-entry table but does not record the individual verdicts,
so this fixed assignment is arbitrary; the claims proved below depend only on
the table covering every code exactly once. -/
def verdictFor (code : Nat) : ExistenceVerdict :=
  if code % 4 = 0 then ExistenceVerdict.terminalHard
  else if code % 4 = 1 then ExistenceVerdict.terminalSoft
  else if code % 4 = 2 then ExistenceVerdict.transitional
  else ExistenceVerdict.survivable

/-- Modelled from the spec: the 64-entry lookup table, "a process-wide
constant loaded at startup and never mutated at runtime" (§3), built
exhaustively over the full code space at definition time. -/
def classifyTable : List (Nat × ExistenceVerdict) :=
  (List.range 64).map (fun c => (c, verdictFor c))

/-- Modelled from the spec: `classify(ProjectedState)` as a table lookup;
`none` would be the runtime-fallback case the spec forbids. -/
def classify (code : Nat) : Option ExistenceVerdict :=
  (classifyTable.find? (fun p => p.1 == code)).map (fun p => p.2)

end ValidityProjector

namespace AuditCycle

/-!
The outer decision cycle and the control-plane response of
`src/unnamed/part_013` (the Bridge Contract) are implemented by
`/core/bridge/http_server.py`, which is not in the repository; the
finalisation step below is modelled from the spec (§4.6, §8 property 5) and
from the contract schema in part_013.
-/

inductive StopReason
  | noStop
  | lexiconViolation
  | ontologicalViolation
  | auditWriteFailed
  deriving DecidableEq

/-- The `execution` block of the Bridge Contract response. -/
structure ExecutionBlock where
  executed : Bool
  deriving DecidableEq

/-- The `audit` block of the Bridge Contract response. -/
structure AuditBlock where
  recorded : Bool
  deriving DecidableEq

/-- The parts of the control-plane response the audit-durability claim
constrains. -/
structure CycleResponse where
  execution : ExecutionBlock
  stopReason : StopReason
  audit : AuditBlock
  deriving DecidableEq

/-- Modelled from the spec: finalising a cycle after the ledger append.
"`recorded=false` is itself a terminal condition for the outer cycle
(stop_reason = `audit_write_failed`) — a decision that cannot be durably
recorded must not be treated as having happened" (§4.6), and
"`audit.recorded=true` only when append to sink succeeds" (part_013). -/
def finalizeCycle (appendOk : Bool) (didExecute : Bool) (reason : StopReason) :
    CycleResponse :=
  if appendOk then ⟨⟨didExecute⟩, reason, ⟨true⟩⟩
  else ⟨⟨false⟩, StopReason.auditWriteFailed, ⟨false⟩⟩

end AuditCycle

open RilLogic McpRouter TestRil ValidityProjector AuditCycle

/-- Helper: a quota option whose JS coalescing `|| 0` is positive must be a
present field holding that value. -/
theorem option_some_of_getD_pos (o : Option Int) (h : ¬ o.getD 0 ≤ 0) :
    o = some (o.getD 0) := by
  cases o with
  | none => simp at h
  | some a => rfl

/-- Helper: six binary flags always encode a code below 64. -/
theorem six_bits_lt (a b c d e f : Bool) :
    32 * bitOf a + 16 * bitOf b + 8 * bitOf c + 4 * bitOf d + 2 * bitOf e + bitOf f < 64 := by
  cases a <;> cases b <;> cases c <;> cases d <;> cases e <;> cases f <;> decide

/-- C1: whenever a completed-execution record already exists for the
idempotency key, the transactional executor returns Replayed carrying exactly
the stored effect, does not invoke the effect again, and leaves the state --
in particular the principal quota -- unchanged; and in the concrete scenario
of the spec, starting from quota 5 the first submission returns Executed with
quota 4 and the identical second submission returns Replayed with the
identical effect and quota still 4. -/
theorem replay_hit_preserves_state_and_effect (s : RilState)
    (uid k : String) (eff : RilEffect)
    (hrec : lookupKey k s.logs = some eff) :
    simulateExecuteLogic s uid k =
      ⟨RilResult.ok RilStatus.replay eff, s, false⟩ ∧
    (let first := simulateExecuteLogic ⟨[("user-01", 5)], []⟩ "user-01" "key_1001"
     first.result = RilResult.ok RilStatus.executed ⟨"aligned_seal_key_1001"⟩ ∧
     lookupKey "user-01" first.state.users = some 4 ∧
     simulateExecuteLogic first.state "user-01" "key_1001" =
       ⟨RilResult.ok RilStatus.replay ⟨"aligned_seal_key_1001"⟩, first.state, false⟩ ∧
     lookupKey "user-01"
       (simulateExecuteLogic first.state "user-01" "key_1001").state.users = some 4) := by
  constructor
  · simp [simulateExecuteLogic, hrec]
  · decide

/-- Witness for C1: a state holding a record for key k1 replays it unchanged. -/
theorem replay_hit_witness :
    simulateExecuteLogic ⟨[("u", 3)], [("k1", ⟨"e"⟩)]⟩ "u" "k1" =
      ⟨RilResult.ok RilStatus.replay ⟨"e"⟩, ⟨[("u", 3)], [("k1", ⟨"e"⟩)]⟩, false⟩ :=
  (replay_hit_preserves_state_and_effect ⟨[("u", 3)], [("k1", ⟨"e"⟩)]⟩ "u" "k1" ⟨"e"⟩
    (by decide)).1

/-- C2: after any single call to the `/execute` handler, the principal quota
counter has changed exactly when this call wrote a completed-execution record
under the envelope idempotency key; no post-state has the decrement without
the record or the record without the decrement. -/
theorem quota_and_log_commit_together (s : Store)
    (uid tool : String) (companyName : Option String) (idemKey : Option String) :
    (quotaOf (handleExecute s uid tool companyName idemKey).store uid ≠ quotaOf s uid) ↔
      (∃ k, idemKey = some k ∧ lookupKey k s.execLogs = none ∧
        lookupKey k (handleExecute s uid tool companyName idemKey).store.execLogs ≠ none) := by
  match idemKey with
  | none => simp [handleExecute]
  | some k =>
    unfold handleExecute replayCheck
    cases hrec : lookupKey k s.execLogs with
    | some entry => simp [hrec]
    | none =>
      simp only [hrec]
      unfold runExecTransaction
      cases huser : lookupKey uid s.users with
      | none => simp [huser]
      | some u =>
        simp only [huser]
        by_cases hq : (u.billing.bind Billing.quota).getD 0 ≤ 0
        · simp [hq]
        · have hqs := option_some_of_getD_pos (u.billing.bind Billing.quota) hq
          simp only [hq, if_false]
          constructor
          · intro _
            exact ⟨k, rfl, hrec, by simp [lookupKey_setKey_self]⟩
          · intro _
            obtain ⟨q, hq2⟩ : ∃ q, u.billing.bind Billing.quota = some q := ⟨_, hqs⟩
            simp [quotaOf, lookupKey_setKey_self, huser, hq2]

/-- Witness for C2: the equivalence instantiated at a fresh execution. -/
theorem quota_and_log_witness :
    (quotaOf (handleExecute ⟨[("u", ⟨some "active", some ⟨some 5⟩⟩)], []⟩
        "u" "t" none (some "K")).store "u" ≠
      quotaOf ⟨[("u", ⟨some "active", some ⟨some 5⟩⟩)], []⟩ "u") ↔
      (∃ k, (some "K" : Option String) = some k ∧
        lookupKey k ([] : List (String × LogEntry)) = none ∧
        lookupKey k (handleExecute ⟨[("u", ⟨some "active", some ⟨some 5⟩⟩)], []⟩
          "u" "t" none (some "K")).store.execLogs ≠ none) :=
  quota_and_log_commit_together ⟨[("u", ⟨some "active", some ⟨some 5⟩⟩)], []⟩
    "u" "t" none (some "K")

/-- C3 (refutation on the code): two concurrent `/execute` submissions with
the same idempotency key, in the interleaving where both perform the
non-transactional idempotency read of `index.ts` line 73 before either
transaction commits, BOTH take the executed path and the quota falls from 5
to 3 -- not the exactly-once effect and single decrement the claim states. -/
theorem concurrent_same_key_double_executes :
    (raceSameKey ⟨[("P", ⟨some "active", some ⟨some 5⟩⟩)], []⟩
        "P" "sli-enrichment" none "K1").1 = HttpResponse.ok (mockResult none) ∧
    (raceSameKey ⟨[("P", ⟨some "active", some ⟨some 5⟩⟩)], []⟩
        "P" "sli-enrichment" none "K1").2.1 = HttpResponse.ok (mockResult none) ∧
    quotaOf (raceSameKey ⟨[("P", ⟨some "active", some ⟨some 5⟩⟩)], []⟩
        "P" "sli-enrichment" none "K1").2.2 "P" = some 3 := by
  decide

/-- C4: when no completed-execution record exists for the key and the
principal remaining quota is not positive, the `/execute` transaction aborts
with the quota-exhausted error and the store -- both the quota ledger and the
completed-execution log -- is exactly the pre-call store. -/
theorem quota_exhausted_aborts_unchanged (s : Store) (uid tool : String)
    (companyName : Option String) (k : String) (u : UserDoc)
    (hnorec : lookupKey k s.execLogs = none)
    (huser : lookupKey uid s.users = some u)
    (hquota : (u.billing.bind Billing.quota).getD 0 ≤ 0) :
    (handleExecute s uid tool companyName (some k)).resp =
      HttpResponse.serverError "Quota exhausted during execution" ∧
    (handleExecute s uid tool companyName (some k)).store = s := by
  unfold handleExecute replayCheck runExecTransaction
  simp [hnorec, huser, hquota]

/-- Witness for C4: a user with quota 0 and an empty log is left unchanged. -/
theorem quota_exhausted_witness :
    (handleExecute ⟨[("u", ⟨some "active", some ⟨some 0⟩⟩)], []⟩
        "u" "t" none (some "K")).resp =
      HttpResponse.serverError "Quota exhausted during execution" ∧
    (handleExecute ⟨[("u", ⟨some "active", some ⟨some 0⟩⟩)], []⟩
        "u" "t" none (some "K")).store =
      ⟨[("u", ⟨some "active", some ⟨some 0⟩⟩)], []⟩ :=
  quota_exhausted_aborts_unchanged ⟨[("u", ⟨some "active", some ⟨some 0⟩⟩)], []⟩
    "u" "t" none "K" ⟨some "active", some ⟨some 0⟩⟩ (by decide) (by decide) (by decide)

/-- C5 (refutation on the code): with quota 0 and no stored record, the
`/execute` handler of `index.ts` and the simulation of `test_ril.ts` both run
the mock task execution (effect invocation) BEFORE the quota check fails, so
the external effect is invoked even though the quota is exhausted,
contradicting the spec ordering of steps 2 and 3. -/
theorem effect_invoked_despite_exhausted_quota :
    (handleExecute ⟨[("P", ⟨some "active", some ⟨some 0⟩⟩)], []⟩
        "P" "sli-enrichment" none (some "K1")).effectInvoked = true ∧
    (handleExecute ⟨[("P", ⟨some "active", some ⟨some 0⟩⟩)], []⟩
        "P" "sli-enrichment" none (some "K1")).resp =
      HttpResponse.serverError "Quota exhausted during execution" ∧
    (simulateExecution ⟨[("u", some 0)], []⟩ "u" "K1").invoked = true ∧
    (simulateExecution ⟨[("u", some 0)], []⟩ "u" "K1").result = SimResult.quotaExhausted := by
  decide

/-- C6: when the audit-ledger append fails, the finalised cycle reports
`audit.recorded = false`, `stop_reason = audit_write_failed`, and no
execution as having occurred; and `audit.recorded` equals the append outcome,
so it is true only when the append succeeded. -/
theorem audit_append_failure_is_terminal (didExecute : Bool) (reason : StopReason) :
    (finalizeCycle false didExecute reason).audit.recorded = false ∧
    (finalizeCycle false didExecute reason).stopReason = StopReason.auditWriteFailed ∧
    (finalizeCycle false didExecute reason).execution.executed = false ∧
    ∀ ok d r, (finalizeCycle ok d r).audit.recorded = ok := by
  refine ⟨rfl, rfl, rfl, ?_⟩
  intro ok d r
  cases ok <;> rfl

/-- Witness for C6: instantiated at a cycle that did execute. -/
theorem audit_append_witness :
    (finalizeCycle false true StopReason.noStop).audit.recorded = false ∧
    (finalizeCycle false true StopReason.noStop).stopReason = StopReason.auditWriteFailed ∧
    (finalizeCycle false true StopReason.noStop).execution.executed = false ∧
    ∀ ok d r, (finalizeCycle ok d r).audit.recorded = ok :=
  audit_append_failure_is_terminal true StopReason.noStop

/-- C7: the verdict table has exactly 64 entries and every ProjectedState
code below 64 resolves through the lookup to a defined verdict, stored under
exactly one table entry -- no code reaches the `none` (runtime-fallback)
case. -/
theorem classify_total_64 :
    classifyTable.length = 64 ∧
    ∀ c < 64, (classify c).isSome = true ∧
      List.countP (fun p => p.1 == c) classifyTable = 1 :=
  ⟨by decide, by decide⟩

/-- C8: `project` is a pure function of its (Snapshot, Delta) input: two
invocations with identical inputs yield the identical ProjectedState and the
identical downstream determinism hash, and the code lies in the 64-entry
space. -/
theorem project_deterministic (s₁ s₂ : Snapshot) (d₁ d₂ : Delta)
    (hs : s₁ = s₂) (hd : d₁ = d₂) :
    project s₁ d₁ = project s₂ d₂ ∧
    determinismHash (project s₁ d₁) = determinismHash (project s₂ d₂) ∧
    project s₁ d₁ < 64 := by
  subst hs
  subst hd
  refine ⟨rfl, rfl, ?_⟩
  exact six_bits_lt _ _ _ _ _ _

/-- Witness for C8: instantiated at a concrete snapshot and delta. -/
theorem project_deterministic_witness :
    project ⟨"Terminal", "window", 800, 600, true⟩ ⟨some "Finder", none, none, none⟩ =
      project ⟨"Terminal", "window", 800, 600, true⟩ ⟨some "Finder", none, none, none⟩ ∧
    determinismHash (project ⟨"Terminal", "window", 800, 600, true⟩
        ⟨some "Finder", none, none, none⟩) =
      determinismHash (project ⟨"Terminal", "window", 800, 600, true⟩
        ⟨some "Finder", none, none, none⟩) ∧
    project ⟨"Terminal", "window", 800, 600, true⟩ ⟨some "Finder", none, none, none⟩ < 64 :=
  project_deterministic ⟨"Terminal", "window", 800, 600, true⟩
    ⟨"Terminal", "window", 800, 600, true⟩ ⟨some "Finder", none, none, none⟩
    ⟨some "Finder", none, none, none⟩ rfl rfl

/-- C9: an authenticated `/execute` request whose stored user document has an
inactive subscription or a billing record with non-positive quota is rejected
by the billing middleware with 402 or 429; the store is untouched, no effect
runs, and no 200 response -- in particular no replayed stored effect -- is
returned, even if a completed-execution record exists for the supplied key. -/
theorem billing_gate_blocks_exhausted_principal (s : Store) (req : ExecRequest)
    (u : UserDoc)
    (hauth : req.authValid = true)
    (huser : lookupKey req.uid s.users = some u)
    (hbad : u.subStatus ≠ some "active" ∨
      ∃ b q, u.billing = some b ∧ b.quota = some q ∧ q ≤ 0) :
    ((executePipeline s req).resp = HttpResponse.paymentRequired "Active subscription required" ∨
     (executePipeline s req).resp = HttpResponse.tooManyRequests "Quota exhausted") ∧
    (executePipeline s req).store = s ∧
    (executePipeline s req).effectInvoked = false ∧
    ∀ r, (executePipeline s req).resp ≠ HttpResponse.ok r := by
  unfold executePipeline checkBillingStatus
  rcases hbad with hsub | ⟨b, q, hb, hq, hq0⟩
  · simp [hauth, huser, hsub]
  · by_cases hsub : u.subStatus = some "active"
    · simp [hauth, huser, hsub, hb, hq, hq0]
    · simp [hauth, huser, hsub]

/-- Witness for C9: a past-due subscriber with a stored record for the
supplied key is rejected without a replay. -/
theorem billing_gate_witness :
    ((executePipeline ⟨[("u", ⟨some "past_due", some ⟨some 7⟩⟩)],
        [("K", ⟨"u", "t", mockResult none⟩)]⟩ ⟨true, "u", "t", none, some "K"⟩).resp =
      HttpResponse.paymentRequired "Active subscription required" ∨
     (executePipeline ⟨[("u", ⟨some "past_due", some ⟨some 7⟩⟩)],
        [("K", ⟨"u", "t", mockResult none⟩)]⟩ ⟨true, "u", "t", none, some "K"⟩).resp =
      HttpResponse.tooManyRequests "Quota exhausted") ∧
    (executePipeline ⟨[("u", ⟨some "past_due", some ⟨some 7⟩⟩)],
        [("K", ⟨"u", "t", mockResult none⟩)]⟩ ⟨true, "u", "t", none, some "K"⟩).store =
      ⟨[("u", ⟨some "past_due", some ⟨some 7⟩⟩)], [("K", ⟨"u", "t", mockResult none⟩)]⟩ ∧
    (executePipeline ⟨[("u", ⟨some "past_due", some ⟨some 7⟩⟩)],
        [("K", ⟨"u", "t", mockResult none⟩)]⟩ ⟨true, "u", "t", none, some "K"⟩).effectInvoked =
      false ∧
    ∀ r, (executePipeline ⟨[("u", ⟨some "past_due", some ⟨some 7⟩⟩)],
        [("K", ⟨"u", "t", mockResult none⟩)]⟩ ⟨true, "u", "t", none, some "K"⟩).resp ≠
      HttpResponse.ok r :=
  billing_gate_blocks_exhausted_principal
    ⟨[("u", ⟨some "past_due", some ⟨some 7⟩⟩)], [("K", ⟨"u", "t", mockResult none⟩)]⟩
    ⟨true, "u", "t", none, some "K"⟩ ⟨some "past_due", some ⟨some 7⟩⟩
    rfl (by decide) (Or.inl (by decide))

/-- C10: an authenticated request that passes the billing gate but carries no
idempotency key is answered 400 with the exact message
"idempotency_key is required for RIL compliance", with the store unchanged
(no quota change, no execution-log write) and no effect invoked. -/
theorem missing_idem_key_rejected (s : Store) (req : ExecRequest) (b : Billing)
    (hauth : req.authValid = true)
    (hbill : checkBillingStatus s req.uid = BillingGate.proceed b)
    (hkey : req.idemKey = none) :
    executePipeline s req =
      ⟨HttpResponse.badRequest "idempotency_key is required for RIL compliance", s, false⟩ := by
  unfold executePipeline
  simp [hauth, hbill, handleExecute, hkey]

/-- Witness for C10: an active subscriber with quota 5 and no key gets the
400 response with nothing written. -/
theorem missing_idem_key_witness :
    executePipeline ⟨[("u", ⟨some "active", some ⟨some 5⟩⟩)], []⟩ ⟨true, "u", "t", none, none⟩ =
      ⟨HttpResponse.badRequest "idempotency_key is required for RIL compliance",
        ⟨[("u", ⟨some "active", some ⟨some 5⟩⟩)], []⟩, false⟩ :=
  missing_idem_key_rejected ⟨[("u", ⟨some "active", some ⟨some 5⟩⟩)], []⟩
    ⟨true, "u", "t", none, none⟩ ⟨some 5⟩ rfl (by decide) rfl
